import Mathlib

/-!
Verification of the bootstrap code of the mixamo-downloader repository.

The repository contains two entry-point scripts:
  * `src/main.pyw` — the main entry point, with SIGINT handling and a
    forced exit (`os._exit`);
  * an unnamed variant (`src/unnamed/part_000`) without signal handling,
    ending in `sys.exit`.

We embed both as pure functions from an environment (the outcome of the
Qt event loop `app.exec_()` and the state of the main window's `browser`
attribute) to a run: the sequence of observable bootstrap actions
performed, and the way the process terminates.
-/

namespace MixamoDownloader

/-- Observable actions performed by the entry points, one constructor per
effectful statement of the source. -/
inductive Event where
  /-- `signal.signal(signal.SIGINT, signal_handler)` (main.pyw line 20) -/
  | installSigintHandler
  /-- `QtCore.QCoreApplication.setAttribute(QtCore.Qt.AA_ShareOpenGLContexts)` -/
  | setShareOpenGLContexts
  /-- `app = QtWidgets.QApplication(sys.argv)`; records the argv passed. -/
  | createQApplication (argv : List String)
  /-- `app.setQuitOnLastWindowClosed(True)` -/
  | setQuitOnLastWindowClosed (b : Bool)
  /-- `md = MixamoDownloaderUI()` -/
  | createMainWindow
  /-- `md.show()` -/
  | showMainWindow
  /-- `timer.timeout.connect(lambda: None)` (main.pyw line 34) -/
  | timerConnectNoop
  /-- `timer.start(100)` (main.pyw line 35) -/
  | startTimer (msec : Nat)
  /-- `app.exec_()` is entered -/
  | execLoop
  /-- `print(...)` -/
  | printMsg (s : String)
  /-- `md.browser.deleteLater()` (main.pyw line 47) -/
  | deleteBrowserLater
  /-- `del md` (variant entry point) -/
  | delWindow
  /-- `del app` (variant entry point) -/
  | delApp
deriving DecidableEq

/-- How the process terminates. -/
inductive Exit where
  /-- `os._exit(code)`: immediate forced termination, no interpreter
  shutdown, with the given exit status. -/
  | osExit (code : Nat)
  /-- `sys.exit(code)`: normal interpreter shutdown (via `SystemExit`)
  with the given exit status. -/
  | sysExit (code : Nat)
  /-- an exception propagated out of the script uncaught: the interpreter
  prints a traceback and exits with status 1. -/
  | uncaught
deriving DecidableEq

/-- `true` iff the termination is a forced exit (`os._exit`), bypassing
interpreter shutdown. -/
def Exit.forced : Exit → Bool
  | Exit.osExit _ => true
  | _ => false

/-- The process exit status produced by each way of terminating. -/
def Exit.status : Exit → Nat
  | Exit.osExit code => code
  | Exit.sysExit code => code
  | Exit.uncaught => 1

/-- Outcome of the Qt event loop call `app.exec_()`: either it returns an
exit code normally, or a `KeyboardInterrupt` propagates out of it. -/
inductive ExecOutcome where
  | normal (code : Nat)
  | keyboardInterrupt
deriving DecidableEq

/-- State of the main window's `browser` attribute when the post-loop
cleanup of main.pyw runs (lines 44-48). -/
inductive BrowserState where
  /-- `hasattr(md, 'browser')` is `False`. -/
  | absent
  /-- the attribute lookup `md.browser` raises an exception. -/
  | accessRaises
  /-- `md.browser` evaluates to a value of the given truthiness. -/
  | present (truthy : Bool)
deriving DecidableEq

/-- The environment of a run: everything the entry points observe from
Qt and the main window. -/
structure Env where
  execOutcome : ExecOutcome
  browser : BrowserState
  /-- whether `md.browser.deleteLater()` raises when called. -/
  deleteLaterRaises : Bool
deriving DecidableEq

/-- The result of running an entry point: its observable actions in order,
and how the process terminates. -/
structure Run where
  events : List Event
  exit : Exit
deriving DecidableEq

/-- A frame object, as passed by Python to a signal handler; the handler
never inspects it. -/
inductive Frame where
  | mk
deriving DecidableEq

/-- The message printed by `signal_handler` (main.pyw line 13). -/
def interruptMsg : String := "\n\nReceived interrupt signal, forcing exit..."

/-- The message printed on `KeyboardInterrupt` (main.pyw line 41). -/
def keyboardInterruptMsg : String := "\n\nKeyboard interrupt, exiting..."

/-- `signal_handler(sig, frame)` of main.pyw lines 11-15: prints a message
and calls `os._exit(0)`. -/
def signal_handler (sig : Nat) (frame : Frame) : List Event × Exit :=
  ([Event.printMsg interruptMsg], Exit.osExit 0)

/-- The `try: exit_code = app.exec_() except KeyboardInterrupt:` block of
main.pyw lines 38-42: yields the events of the block and the value bound
to `exit_code`. -/
def execTry : ExecOutcome → List Event × Nat
  | ExecOutcome.normal code => ([], code)
  | ExecOutcome.keyboardInterrupt => ([Event.printMsg keyboardInterruptMsg], 0)

/-- The guarded cleanup of main.pyw lines 44-48:
`try: if hasattr(md, 'browser') and md.browser: md.browser.deleteLater()
except: pass`. The bare `except` swallows every exception (an exception
from the attribute lookup skips the call; one from `deleteLater` leaves
the call made), so the block yields events and never raises. -/
def browserCleanup : BrowserState → List Event
  | BrowserState.present true => [Event.deleteBrowserLater]
  | _ => []

/-- The `__main__` block of src/main.pyw (lines 18-52), as a function of
the command-line arguments and the environment. -/
def mainEntry (argv : List String) (env : Env) : Run :=
  { events :=
      Event.installSigintHandler ::
      Event.setShareOpenGLContexts ::
      Event.createQApplication argv ::
      Event.setQuitOnLastWindowClosed true ::
      Event.createMainWindow ::
      Event.showMainWindow ::
      Event.timerConnectNoop ::
      Event.startTimer 100 ::
      Event.execLoop ::
      ((execTry env.execOutcome).1 ++ browserCleanup env.browser)
    exit := Exit.osExit (execTry env.execOutcome).2 }

/-- The `__main__` block of the unnamed variant entry point
(src/unnamed/part_000 lines 9-28). It installs no signal handler, has no
`try` around `app.exec_()` (a `KeyboardInterrupt` propagates uncaught),
deletes `md` and `app`, and ends with `sys.exit(exit_code)`. -/
def variantEntry (argv : List String) (env : Env) : Run :=
  match env.execOutcome with
  | ExecOutcome.normal code =>
      { events :=
          Event.setShareOpenGLContexts ::
          Event.createQApplication argv ::
          Event.setQuitOnLastWindowClosed true ::
          Event.createMainWindow ::
          Event.showMainWindow ::
          Event.execLoop ::
          Event.delWindow ::
          Event.delApp :: []
        exit := Exit.sysExit code }
  | ExecOutcome.keyboardInterrupt =>
      { events :=
          Event.setShareOpenGLContexts ::
          Event.createQApplication argv ::
          Event.setQuitOnLastWindowClosed true ::
          Event.createMainWindow ::
          Event.showMainWindow ::
          Event.execLoop :: []
        exit := Exit.uncaught }

/-- `signal.SIGINT` on POSIX. -/
def SIGINT : Nat := 2

/-- A signal disposition: either the `signal_handler` installed by
main.pyw, or whatever disposition the signal had before startup. -/
inductive Disposition where
  | sigHandler
  | prior (tag : Nat)
deriving DecidableEq

/-- The effect of startup on the process signal table: line 20 of
main.pyw, `signal.signal(signal.SIGINT, signal_handler)`, is the only
signal-disposition change in the program. -/
def installHandlers (d0 : Nat → Disposition) : Nat → Disposition :=
  fun s => if s = SIGINT then Disposition.sigHandler else d0 s

/-- Event `e1` occurs at some position strictly before an occurrence of
`e2` in the trace `tr`. -/
def occursBefore (e1 e2 : Event) (tr : List Event) : Prop :=
  ∃ i j, i < j ∧ tr.get? i = some e1 ∧ tr.get? j = some e2

/-- Erase the argv payload of the `createQApplication` event; all other
events are kept as they are. -/
def eraseArgv : Event → Event
  | Event.createQApplication _ => Event.createQApplication []
  | e => e

/-- Modelled from the spec: the behaviour both entry points are claimed
to share on a normal run (C8): `AA_ShareOpenGLContexts` is set before the
`QApplication` is created with the given argv, quit-on-last-window-closed
is enabled, the main window is created and then shown, the event loop is
entered after the window is shown, and the process exit status is the
value the event loop returned. -/
def normalBootSpec (r : Run) (argv : List String) (code : Nat) : Prop :=
  occursBefore Event.setShareOpenGLContexts (Event.createQApplication argv) r.events
  ∧ Event.setQuitOnLastWindowClosed true ∈ r.events
  ∧ occursBefore (Event.createQApplication argv) Event.createMainWindow r.events
  ∧ occursBefore Event.createMainWindow Event.showMainWindow r.events
  ∧ occursBefore Event.showMainWindow Event.execLoop r.events
  ∧ r.exit.status = code

/-- C1: for every pair of arguments (sig, frame), the installed SIGINT
handler `signal_handler` force-kills the process immediately with exit
status 0, performing no cleanup (no browser teardown, no interpreter
shutdown) before the exit. -/
theorem signal_handler_forces_immediate_exit (sig : Nat) (frame : Frame) :
    (signal_handler sig frame).2 = Exit.osExit 0
    ∧ (signal_handler sig frame).2.forced = true
    ∧ Event.deleteBrowserLater ∉ (signal_handler sig frame).1
    ∧ Event.delWindow ∉ (signal_handler sig frame).1
    ∧ Event.delApp ∉ (signal_handler sig frame).1 := by
  refine ⟨rfl, rfl, ?_, ?_, ?_⟩ <;> simp [signal_handler]

/-- C2: on every execution path of the main entry point, the process
terminates by a forced exit (`os._exit`), with status equal to the value
returned by `app.exec_()` when the loop returns normally, and 0 when the
loop is interrupted. -/
theorem mainEntry_always_forced_exit (argv : List String) (env : Env) :
    (mainEntry argv env).exit.forced = true
    ∧ (∀ code, env.execOutcome = ExecOutcome.normal code →
        (mainEntry argv env).exit = Exit.osExit code)
    ∧ (env.execOutcome = ExecOutcome.keyboardInterrupt →
        (mainEntry argv env).exit = Exit.osExit 0) := by
  obtain ⟨o, b, d⟩ := env
  cases o <;> simp [mainEntry, execTry, Exit.forced]

theorem mainEntry_always_forced_exit_witness :
    (mainEntry ["app"] ⟨ExecOutcome.normal 7, BrowserState.absent, false⟩).exit
      = Exit.osExit 7 :=
  (mainEntry_always_forced_exit ["app"]
    ⟨ExecOutcome.normal 7, BrowserState.absent, false⟩).2.1 7 rfl

/-- C3 as stated is false: the entry point forwards `sys.argv` to the
`QApplication` constructor, so two runs differing only in argv differ
observably (here argv `["app"]` versus `["app", "-platform", "offscreen"]`
in an otherwise identical environment). -/
theorem mainEntry_depends_on_argv :
    mainEntry ["app"] ⟨ExecOutcome.normal 0, BrowserState.absent, false⟩
      ≠ mainEntry ["app", "-platform", "offscreen"]
          ⟨ExecOutcome.normal 0, BrowserState.absent, false⟩ := by
  decide

/-- C3 amended: the entry point consults no command-line arguments itself;
apart from forwarding `sys.argv` verbatim to the `QApplication`
constructor, its behaviour is argv-independent — for any two argvs the
exit is identical and the event traces agree once the argv payload of the
`createQApplication` event is erased. -/
theorem mainEntry_argv_independent_up_to_forwarding
    (argv1 argv2 : List String) (env : Env) :
    (mainEntry argv1 env).exit = (mainEntry argv2 env).exit
    ∧ (mainEntry argv1 env).events.map eraseArgv
        = (mainEntry argv2 env).events.map eraseArgv := by
  obtain ⟨o, b, d⟩ := env
  exact ⟨rfl, by simp [mainEntry, eraseArgv]⟩

/-- C4: startup changes the disposition of SIGINT only — it becomes the
module's handler, every other signal keeps its prior disposition — and the
trace of the entry point contains exactly one handler installation. -/
theorem startup_changes_only_sigint (d0 : Nat → Disposition)
    (argv : List String) (env : Env) :
    installHandlers d0 SIGINT = Disposition.sigHandler
    ∧ (∀ s, s ≠ SIGINT → installHandlers d0 s = d0 s)
    ∧ (mainEntry argv env).events.count Event.installSigintHandler = 1 := by
  refine ⟨by simp [installHandlers], fun s hs => by simp [installHandlers, hs], ?_⟩
  obtain ⟨o, b, d⟩ := env
  cases o <;> rcases b with _ | _ | (_ | _) <;>
    simp [mainEntry, execTry, browserCleanup, List.count_cons, List.count_append]

theorem startup_changes_only_sigint_witness :
    installHandlers (fun _ => Disposition.prior 0) 15 = Disposition.prior 0 :=
  (startup_changes_only_sigint (fun _ => Disposition.prior 0) ["app"]
    ⟨ExecOutcome.normal 0, BrowserState.absent, false⟩).2.1 15 (by decide)

/-- C5: the bootstrap steps occur in the stated order on every run: the
SIGINT handler is installed and AA_ShareOpenGLContexts is set before the
application object is created, the application object is created before
the main window is instantiated and shown, and the window is shown before
the event loop is started. -/
theorem bootstrap_order (argv : List String) (env : Env) :
    occursBefore Event.installSigintHandler (Event.createQApplication argv)
      (mainEntry argv env).events
    ∧ occursBefore Event.setShareOpenGLContexts (Event.createQApplication argv)
        (mainEntry argv env).events
    ∧ occursBefore (Event.createQApplication argv) Event.createMainWindow
        (mainEntry argv env).events
    ∧ occursBefore Event.createMainWindow Event.showMainWindow
        (mainEntry argv env).events
    ∧ occursBefore Event.showMainWindow Event.execLoop
        (mainEntry argv env).events := by
  exact ⟨⟨0, 2, by omega, rfl, rfl⟩, ⟨1, 2, by omega, rfl, rfl⟩,
    ⟨2, 4, by omega, rfl, rfl⟩, ⟨4, 5, by omega, rfl, rfl⟩,
    ⟨5, 8, by omega, rfl, rfl⟩⟩

/-- C6: if a `KeyboardInterrupt` propagates out of `app.exec_()`, the
entry point catches it (printing the interrupt message), exits with
status 0 by a forced exit, and still attempts the post-loop browser
cleanup; the interrupt never escapes the program as an exception. -/
theorem keyboard_interrupt_handled (argv : List String) (env : Env)
    (h : env.execOutcome = ExecOutcome.keyboardInterrupt) :
    (mainEntry argv env).exit = Exit.osExit 0
    ∧ (mainEntry argv env).exit ≠ Exit.uncaught
    ∧ Event.printMsg keyboardInterruptMsg ∈ (mainEntry argv env).events
    ∧ (env.browser = BrowserState.present true →
        Event.deleteBrowserLater ∈ (mainEntry argv env).events) := by
  obtain ⟨o, b, d⟩ := env
  cases h
  refine ⟨rfl, by simp [mainEntry, execTry], by simp [mainEntry, execTry],
    fun hb => ?_⟩
  cases hb
  simp [mainEntry, execTry, browserCleanup]

theorem keyboard_interrupt_handled_witness :
    (mainEntry ["app"]
      ⟨ExecOutcome.keyboardInterrupt, BrowserState.present true, false⟩).exit
      = Exit.osExit 0 :=
  (keyboard_interrupt_handled ["app"]
    ⟨ExecOutcome.keyboardInterrupt, BrowserState.present true, false⟩ rfl).1

/-- C7: the post-loop `deleteLater` call happens exactly when the main
window has a truthy `browser` attribute, and exceptions raised during the
cleanup (attribute access or `deleteLater`) are swallowed: the exit
passed to the final forced exit does not depend on the browser state or
on whether `deleteLater` raises. -/
theorem cleanup_guarded_and_exceptions_swallowed
    (argv : List String) (env : Env) :
    (Event.deleteBrowserLater ∈ (mainEntry argv env).events
      ↔ env.browser = BrowserState.present true)
    ∧ (∀ b d, (mainEntry argv { env with browser := b, deleteLaterRaises := d }).exit
        = (mainEntry argv env).exit) := by
  obtain ⟨o, br, dl⟩ := env
  constructor
  · cases o <;> rcases br with _ | _ | (_ | _) <;>
      simp [mainEntry, execTry, browserCleanup]
  · intro b d
    rfl

theorem cleanup_guarded_witness :
    Event.deleteBrowserLater ∈ (mainEntry ["app"]
      ⟨ExecOutcome.normal 3, BrowserState.present true, false⟩).events :=
  (cleanup_guarded_and_exceptions_swallowed ["app"]
    ⟨ExecOutcome.normal 3, BrowserState.present true, false⟩).1.mpr rfl

/-- C8: on normal termination both entry-point variants realise the same
specified behaviour: AA_ShareOpenGLContexts is set before the
`QApplication` is created with `sys.argv`, quit-on-last-window-closed is
enabled, the main window is instantiated and then shown, the event loop
runs after the window is shown, and the process exit status is the event
loop's return value. -/
theorem entry_points_equivalent_on_normal_exit (argv : List String)
    (env : Env) (code : Nat) (h : env.execOutcome = ExecOutcome.normal code) :
    normalBootSpec (mainEntry argv env) argv code
    ∧ normalBootSpec (variantEntry argv env) argv code := by
  obtain ⟨o, b, d⟩ := env
  cases h
  constructor
  · exact ⟨⟨1, 2, by omega, rfl, rfl⟩, by simp [mainEntry],
      ⟨2, 4, by omega, rfl, rfl⟩, ⟨4, 5, by omega, rfl, rfl⟩,
      ⟨5, 8, by omega, rfl, rfl⟩, rfl⟩
  · exact ⟨⟨0, 1, by omega, rfl, rfl⟩, by simp [variantEntry],
      ⟨1, 3, by omega, rfl, rfl⟩, ⟨3, 4, by omega, rfl, rfl⟩,
      ⟨4, 5, by omega, rfl, rfl⟩, rfl⟩

theorem entry_points_equivalent_witness :
    Exit.status (mainEntry ["app"]
        ⟨ExecOutcome.normal 4, BrowserState.absent, false⟩).exit = 4
    ∧ Exit.status (variantEntry ["app"]
        ⟨ExecOutcome.normal 4, BrowserState.absent, false⟩).exit = 4 := by
  obtain ⟨hA, hB⟩ := entry_points_equivalent_on_normal_exit ["app"]
    ⟨ExecOutcome.normal 4, BrowserState.absent, false⟩ 4 rfl
  exact ⟨hA.2.2.2.2.2, hB.2.2.2.2.2⟩

end MixamoDownloader
